import Mathlib

/-!
Shallow embedding of `fetch_and_insert_nasa_data.py` (nasa_project).

The script is a linear fetch → flatten → provision-table → load pipeline.
External effects (the HTTP layer, the ODBC driver, `pandas`) are black boxes:
their observable outcomes are supplied through an `Env` record (did the network
call succeed, did each row insert succeed, …) and through function parameters
(`normalize` for `pd.json_normalize`, `parse` for `pd.to_datetime`).  The
pipeline itself is embedded faithfully as pure functions that return the trace
of observable events (log lines, DB calls, resource closes) together with the
process exit code; `sys.exit(n)` is modelled as `Except.error n` threaded to
the top of `main`.
-/

/-- A scalar cell value of the tabular record set (pandas stores integers,
strings, booleans, datetimes and nulls/NaT in the frames this script builds). -/
inductive Value where
  | intV (n : Int)
  | strV (s : String)
  | boolV (b : Bool)
  | dateV (d : Int)
  | nullV
deriving DecidableEq, Repr

/-- Python `repr`-ish rendering of a cell, used in log interpolation. -/
def showValue : Value → String
  | Value.intV n => toString n
  | Value.strV s => s
  | Value.boolV b => toString b
  | Value.dateV d => toString d
  | Value.nullV => "NaT"

/-- Logging levels of the `logging` module as used by the script. -/
inductive LogLevel where
  | info
  | warning
  | error
  | debug
deriving DecidableEq, Repr

/-- Observable events of a run: log lines, console prints, and the external
calls (HTTP, DB connect/DDL/insert/commit/rollback, resource closes). -/
inductive Event where
  | log (lvl : LogLevel) (msg : String)
  | consoleOut (s : String)
  | httpGet
  | dbConnect
  | cursorOpen
  | ddlExecute
  | ddlCommit
  | ddlRollback
  | rowInsert (i : Nat)
  | batchCommit
  | batchRollback
  | cursorClose
  | connClose
deriving DecidableEq, Repr

/-- A parsed JSON photo record from the API response (`data['photos'][i]`).
Nested objects are only ever consumed through `pd.json_normalize`, which is a
black box here, so the fields are kept as an association list. -/
abbrev Photo : Type := List (String × Value)

/-- A pandas `DataFrame`: parallel lists of column names and dtype strings
(the `str(dtype)` values that `create_table_if_not_exists` inspects), and the
rows of cells. -/
structure DataFrame where
  cols : List String
  dtypes : List String
  rows : List (List Value)
deriving DecidableEq, Repr

/-- The fixed rename dict applied by `dataframe.rename(columns={...})` at
lines 103-111 and 210-218: dotted nested field names to underscore names.
A column name that is a key of the dict is replaced by its value; any other
name passes through unchanged (pandas dict-rename semantics). -/
def renameCol (c : String) : String :=
  if c = "camera.name" then "camera_name"
  else if c = "camera.full_name" then "camera_full_name"
  else if c = "rover.id" then "rover_id"
  else if c = "rover.name" then "rover_name"
  else if c = "rover.launch_date" then "rover_launch_date"
  else if c = "rover.landing_date" then "rover_landing_date"
  else if c = "rover.status" then "rover_status"
  else c

/-- The keys of the rename dict. -/
def renameKeys : List String :=
  ["camera.name", "camera.full_name", "rover.id", "rover.name",
   "rover.launch_date", "rover.landing_date", "rover.status"]

/-- `dataframe.rename(columns={...}, inplace=True)`: renames the columns,
leaves dtypes and rows untouched. -/
def renameDF (df : DataFrame) : DataFrame :=
  { df with cols := df.cols.map renameCol }

/-- The `sql_types` dict of `create_table_if_not_exists` (lines 114-121). -/
def sql_types : List (String × String) :=
  [("int64", "BIGINT"),
   ("float64", "FLOAT"),
   ("object", "NVARCHAR(MAX)"),
   ("datetime64[ns]", "DATETIME"),
   ("bool", "BIT"),
   ("datetime64[ns, UTC]", "DATETIME")]

/-- `sql_types.get(str(dtype), 'NVARCHAR(MAX)')` (line 125). -/
def sqlTypeFor (dtype : String) : String :=
  (sql_types.lookup dtype).getD "NVARCHAR(MAX)"

/-- One element of `columns_with_types` (lines 126-130): the column
definition string, with ` PRIMARY KEY` appended exactly when the column is
named `id`. -/
def columnDef (column dtype : String) : String :=
  if column = "id" then "[" ++ column ++ "] " ++ sqlTypeFor dtype ++ " PRIMARY KEY"
  else "[" ++ column ++ "] " ++ sqlTypeFor dtype

/-- The `columns_with_types` list built from `dataframe.dtypes.items()`
(lines 123-130). -/
def columns_with_types (df : DataFrame) : List String :=
  (df.cols.zip df.dtypes).map (fun p => columnDef p.1 p.2)

/-- The conditional CREATE TABLE statement (lines 132-146). -/
def create_table_query (table_name : String) (df : DataFrame) : String :=
  let columns_sql := String.intercalate ",\n    " (columns_with_types df)
  "\n    IF OBJECT_ID('[" ++ table_name ++ "]', 'U') IS NULL\n    BEGIN\n" ++
  "        CREATE TABLE [" ++ table_name ++ "] (\n            " ++ columns_sql ++
  "\n        );\n        PRINT 'Table " ++ table_name ++ " created successfully.'\n" ++
  "    END\n    ELSE\n    BEGIN\n        PRINT 'Table " ++ table_name ++
  " already exists.'\n    END\n    "

/-- Outcome of one `cursor.execute(insert_query, data)` call, as classified by
the two `except` clauses of the per-row loop (lines 180-188). -/
inductive InsertOutcome where
  | ok
  | integrityError
  | otherError (msg : String)
deriving DecidableEq, Repr

/-- The two local counters of `insert_data` (lines 176-177). -/
structure InsertCounters where
  successful_inserts : Nat
  failed_inserts : Nat
deriving DecidableEq, Repr

/-- One iteration of the per-row loop (lines 179-188): attempt the insert,
then either count a success, log a duplicate warning and count a failure, or
log an error and count a failure.  Every branch continues the loop. -/
def insertRowStep (outcome : InsertOutcome) (i : Nat) (data : List Value)
    (c : InsertCounters) : InsertCounters × List Event :=
  match outcome with
  | InsertOutcome.ok =>
      ({ c with successful_inserts := c.successful_inserts + 1 }, [Event.rowInsert i])
  | InsertOutcome.integrityError =>
      ({ c with failed_inserts := c.failed_inserts + 1 },
       [Event.rowInsert i,
        Event.log LogLevel.warning
          ("Duplicate entry for ID " ++ showValue (data.getD 0 Value.nullV) ++
           ". Skipping insertion.")])
  | InsertOutcome.otherError msg =>
      ({ c with failed_inserts := c.failed_inserts + 1 },
       [Event.rowInsert i,
        Event.log LogLevel.error ("Error inserting data: " ++ msg)])

/-- The per-row loop of `insert_data` over the remaining rows, starting at row
index `i` with current counters `c`.  It is total: no exception escapes an
iteration, so every remaining row is processed. -/
def insertLoopAux (outcomes : Nat → InsertOutcome) (i : Nat)
    (rows : List (List Value)) (c : InsertCounters) : InsertCounters × List Event :=
  match rows with
  | [] => (c, [])
  | data :: rest =>
      let (c1, evs) := insertRowStep (outcomes i) i data c
      let (c2, evrest) := insertLoopAux outcomes (i + 1) rest c1
      (c2, evs ++ evrest)

/-- The per-row loop of `insert_data` (lines 176-188) from the initial
counters `successful_inserts = failed_inserts = 0`. -/
def insertLoop (outcomes : Nat → InsertOutcome) (rows : List (List Value)) :
    InsertCounters × List Event :=
  insertLoopAux outcomes 0 rows ⟨0, 0⟩

/-- Outcomes of the external world for one run: presence of configuration,
success of the network call and its payload, success of the DB connect, of the
DDL execute+commit, of each row insert, and of the final batch commit. -/
structure Env where
  apiKeyPresent : Bool
  networkOk : Bool
  photos : List Photo
  dbConfigMissing : List String
  connectOk : Bool
  ddlOk : Bool
  insertOutcome : Nat → InsertOutcome
  commitOk : Bool

/-- `fetch_nasa_mars_rover_photos` (lines 30-61).  `normalize` stands for
`pd.json_normalize`.  A missing API key exits 1; a request exception is caught
and turns the result into the empty list; an empty photo list logs a warning
and exits 1; otherwise the normalized DataFrame is returned. -/
def fetch_nasa_mars_rover_photos (normalize : List Photo → DataFrame)
    (env : Env) : List Event × Except Nat DataFrame :=
  if ¬ env.apiKeyPresent then
    ([Event.log LogLevel.error "NASA_API_KEY not found in environment variables."],
     Except.error 1)
  else
    let (ev, photos) :=
      if env.networkOk then
        ([Event.httpGet,
          Event.log LogLevel.info
            ("Number of photos fetched: " ++ toString env.photos.length)],
         env.photos)
      else
        ([Event.httpGet,
          Event.log LogLevel.error "Error fetching data from NASA API"],
         ([] : List Photo))
    if photos.isEmpty then
      (ev ++ [Event.log LogLevel.warning "No photos to process. Exiting."],
       Except.error 1)
    else
      (ev ++ [Event.log LogLevel.info
               "Data fetched successfully and converted to DataFrame."],
       Except.ok (normalize photos))

/-- `connect_to_sql_server` (lines 67-95).  Missing DB environment variables
exit 1 before any connection attempt; a failed `pyodbc.connect` exits 1. -/
def connect_to_sql_server (env : Env) : List Event × Except Nat Unit :=
  if ¬ env.dbConfigMissing.isEmpty then
    ([Event.log LogLevel.error
       ("Missing environment variables: " ++
        String.intercalate ", " env.dbConfigMissing)],
     Except.error 1)
  else if env.connectOk then
    ([Event.dbConnect, Event.log LogLevel.info "Connection to SQL Server successful."],
     Except.ok ())
  else
    ([Event.dbConnect, Event.log LogLevel.error "Error connecting to SQL Server"],
     Except.error 1)

/-- `create_table_if_not_exists` (lines 101-158).  First renames the dotted
columns in place (the returned DataFrame models the mutated argument), then
prints and executes the conditional CREATE TABLE.  On a DDL error it logs,
rolls back, closes the cursor — but not the connection — and exits 1. -/
def create_table_if_not_exists (env : Env) (table_name : String)
    (dataframe : DataFrame) : List Event × Except Nat DataFrame :=
  let df2 := renameDF dataframe
  let q := create_table_query table_name df2
  if env.ddlOk then
    ([Event.consoleOut q, Event.ddlExecute, Event.ddlCommit,
      Event.log LogLevel.info
        ("Table '" ++ table_name ++ "' is ready for data insertion.")],
     Except.ok df2)
  else
    ([Event.consoleOut q, Event.ddlExecute,
      Event.log LogLevel.error ("Error creating table '" ++ table_name ++ "'"),
      Event.ddlRollback, Event.cursorClose],
     Except.error 1)

/-- `insert_data` (lines 164-197): run the per-row loop over all rows, then
commit once; a commit failure is logged and rolled back, never retried and
never re-raised. -/
def insert_data (env : Env) (table_name : String) (dataframe : DataFrame) :
    List Event :=
  let (counters, evs) := insertLoop env.insertOutcome dataframe.rows
  let commitEvs :=
    if env.commitOk then
      [Event.batchCommit,
       Event.log LogLevel.info
         ("Inserted " ++ toString counters.successful_inserts ++
          " rows into '" ++ table_name ++ "'.")] ++
      (if counters.failed_inserts > 0 then
        [Event.log LogLevel.info
          ("Skipped " ++ toString counters.failed_inserts ++
           " duplicate or erroneous rows.")]
       else [])
    else
      [Event.batchCommit,
       Event.log LogLevel.error "Error committing data to SQL Server",
       Event.batchRollback]
  evs ++ commitEvs

/-- The `required_columns` list of `main` (lines 228-240). -/
def required_columns : List String :=
  ["id", "sol", "camera_name", "camera_full_name", "earth_date", "img_src",
   "rover_id", "rover_name", "rover_launch_date", "rover_landing_date",
   "rover_status"]

/-- The `date_columns` list of `main` (line 252). -/
def date_columns : List String :=
  ["earth_date", "rover_launch_date", "rover_landing_date"]

/-- `photos_df[required_columns]` (line 249): project the frame onto the given
columns, in their order.  (In `main` this runs only after the missing-column
check, so every requested column is present.) -/
def DataFrame.select (df : DataFrame) (cs : List String) : DataFrame :=
  { cols := cs,
    dtypes := cs.map (fun c => df.dtypes.getD (df.cols.indexOf c) "object"),
    rows := df.rows.map (fun r => cs.map (fun c => r.getD (df.cols.indexOf c) Value.nullV)) }

/-- One cell under `pd.to_datetime(col, errors='coerce')`: `parse` stands for
the pandas datetime parser; an unparseable value becomes null (NaT). -/
def toDatetimeCoerce (parse : Value → Option Int) (v : Value) : Value :=
  match parse v with
  | some d => Value.dateV d
  | none => Value.nullV

/-- The date-coercion loop of `main` (lines 252-255): every column whose name
is in `dcols` (and present in the frame) is converted cell-wise with
`errors='coerce'` and its dtype becomes `datetime64[ns]`. -/
def coerceDates (parse : Value → Option Int) (dcols : List String)
    (df : DataFrame) : DataFrame :=
  { cols := df.cols,
    dtypes := (df.cols.zip df.dtypes).map
      (fun p => if p.1 ∈ dcols then "datetime64[ns]" else p.2),
    rows := df.rows.map
      (fun r => (df.cols.zip r).map
        (fun p => if p.1 ∈ dcols then toDatetimeCoerce parse p.2 else p.2)) }

/-- `main` (lines 203-263), returning the full event trace and the process
exit code (0 when the script runs to completion). -/
def mainRun (normalize : List Photo → DataFrame) (parse : Value → Option Int)
    (env : Env) : List Event × Nat :=
  let table_name := "mars_rover_photos_raw"
  match fetch_nasa_mars_rover_photos normalize env with
  | (ev1, Except.error n) => (ev1, n)
  | (ev1, Except.ok photos_df) =>
    let df1 := renameDF photos_df
    match connect_to_sql_server env with
    | (ev2, Except.error n) => (ev1 ++ ev2, n)
    | (ev2, Except.ok _) =>
      let ev3 := [Event.cursorOpen]
      match create_table_if_not_exists env table_name df1 with
      | (ev4, Except.error n) => (ev1 ++ ev2 ++ ev3 ++ ev4, n)
      | (ev4, Except.ok df2) =>
        let missing_columns := required_columns.filter (fun c => c ∉ df2.cols)
        if ¬ missing_columns.isEmpty then
          (ev1 ++ ev2 ++ ev3 ++ ev4 ++
            [Event.log LogLevel.error
              ("Missing columns in data: " ++ String.intercalate ", " missing_columns),
             Event.cursorClose, Event.connClose],
           1)
        else
          let data_to_insert := coerceDates parse date_columns (df2.select required_columns)
          let ev5 := insert_data env table_name data_to_insert
          (ev1 ++ ev2 ++ ev3 ++ ev4 ++ ev5 ++
            [Event.cursorClose, Event.connClose,
             Event.log LogLevel.info "SQL Server connection closed."],
           0)

/-- Classifier for row-insert attempt events. -/
def isRowInsertEv : Event → Bool
  | Event.rowInsert _ => true
  | _ => false

/-- Classifier for final-commit attempt events. -/
def isBatchCommitEv : Event → Bool
  | Event.batchCommit => true
  | _ => false

/-- The row cell transformation performed by the date-coercion loop on one
row (see `coerceDates`). -/
def coerceRow (parse : Value → Option Int) (dcols : List String)
    (cols : List String) (r : List Value) : List Value :=
  (cols.zip r).map (fun p => if p.1 ∈ dcols then toDatetimeCoerce parse p.2 else p.2)

/-- A concrete normalized API response frame with the eleven expected columns
(one photo row), used to instantiate the universally quantified theorems. -/
def dfRawC : DataFrame :=
  { cols := ["id", "sol", "camera.name", "camera.full_name", "earth_date",
             "img_src", "rover.id", "rover.name", "rover.launch_date",
             "rover.landing_date", "rover.status"],
    dtypes := ["int64", "int64", "object", "object", "object", "object",
               "int64", "object", "object", "object", "object"],
    rows := [[Value.intV 424905, Value.intV 1000, Value.strV "FHAZ",
              Value.strV "Front Hazard Avoidance Camera", Value.strV "2015-05-30",
              Value.strV "http://mars.jpl.nasa.gov/img1.jpg", Value.intV 5,
              Value.strV "Curiosity", Value.strV "2011-11-26",
              Value.strV "2012-08-06", Value.strV "active"]] }

/-- A concrete frame from which the `img_src` column is missing. -/
def dfMissingC : DataFrame :=
  { cols := ["id", "sol", "camera.name", "camera.full_name", "earth_date",
             "rover.id", "rover.name", "rover.launch_date",
             "rover.landing_date", "rover.status"],
    dtypes := ["int64", "int64", "object", "object", "object",
               "int64", "object", "object", "object", "object"],
    rows := [[Value.intV 424905, Value.intV 1000, Value.strV "FHAZ",
              Value.strV "Front Hazard Avoidance Camera", Value.strV "2015-05-30",
              Value.intV 5, Value.strV "Curiosity", Value.strV "2011-11-26",
              Value.strV "2012-08-06", Value.strV "active"]] }

/-- A concrete `pd.json_normalize` stand-in returning the full frame. -/
def normalizeC : List Photo → DataFrame := fun _ => dfRawC

/-- A concrete `pd.json_normalize` stand-in returning the frame that lacks
`img_src`. -/
def normalizeMissC : List Photo → DataFrame := fun _ => dfMissingC

/-- A concrete datetime parser: strings parse (to day 0), dates stay, and
everything else (numbers, booleans, nulls) is unparseable. -/
def parseC : Value → Option Int
  | Value.strV _ => some 0
  | Value.dateV d => some d
  | _ => none

/-- A concrete single photo record. -/
def photoC : Photo := [("id", Value.intV 424905)]

/-- A fully successful environment: key present, network up, one photo, DB
config complete, connect/DDL/inserts/commit all succeed. -/
def goodEnv : Env :=
  { apiKeyPresent := true, networkOk := true, photos := [photoC],
    dbConfigMissing := [], connectOk := true, ddlOk := true,
    insertOutcome := fun _ => InsertOutcome.ok, commitOk := true }

/-- `goodEnv` except that the CREATE TABLE DDL fails. -/
def ddlFailEnv : Env := { goodEnv with ddlOk := false }

/-- `goodEnv` except that the final batch commit fails. -/
def commitFailEnv : Env := { goodEnv with commitOk := false }

/-- `goodEnv` except that the fetch returns zero photos. -/
def emptyFetchEnv : Env := { goodEnv with photos := [] }

/-- `goodEnv` except that every row insert raises `pyodbc.IntegrityError`. -/
def allDupEnv : Env := { goodEnv with insertOutcome := fun _ => InsertOutcome.integrityError }

/-- A concrete single-cell row whose first entry is the record key. -/
def dupRow : List Value := [Value.intV 424905]

/-- Helper: the loop counters count exactly the ok / non-ok outcomes over the
processed index range, and one row-insert attempt event is emitted per row. -/
theorem insertLoopAux_spec (outcomes : Nat → InsertOutcome) (rows : List (List Value)) :
    ∀ (i : Nat) (c : InsertCounters),
      (insertLoopAux outcomes i rows c).1.successful_inserts
          = c.successful_inserts
            + (List.range' i rows.length).countP (fun j => decide (outcomes j = InsertOutcome.ok))
      ∧ (insertLoopAux outcomes i rows c).1.failed_inserts
          = c.failed_inserts
            + (List.range' i rows.length).countP (fun j => decide (¬ outcomes j = InsertOutcome.ok))
      ∧ (insertLoopAux outcomes i rows c).2.countP isRowInsertEv = rows.length := by
  induction rows with
  | nil => intro i c; simp [insertLoopAux]
  | cons data rest ih =>
      intro i c
      cases h : outcomes i <;>
        simp [insertLoopAux, insertRowStep, h, List.range'_succ, List.countP_cons,
              List.countP_append, ih, isRowInsertEv] <;> omega

/-- Helper: the loop emits exactly one `rowInsert j` event for each processed
index `j`, and none for any other index. -/
theorem insertLoopAux_count_rowInsert (outcomes : Nat → InsertOutcome) (j : Nat)
    (rows : List (List Value)) :
    ∀ (i : Nat) (c : InsertCounters),
      (insertLoopAux outcomes i rows c).2.countP (fun e => decide (e = Event.rowInsert j))
        = if i ≤ j ∧ j < i + rows.length then 1 else 0 := by
  induction rows with
  | nil => intro i c; simp [insertLoopAux]; split_ifs <;> omega
  | cons data rest ih =>
      intro i c
      cases h : outcomes i <;>
        simp [insertLoopAux, insertRowStep, h, List.countP_cons, List.countP_append, ih] <;>
        split_ifs <;> omega

/-- Helper: when the `j`-th processed row hits an integrity error, the
duplicate warning naming that row's first cell is logged. -/
theorem insertLoopAux_dup_mem (outcomes : Nat → InsertOutcome) (rows : List (List Value)) :
    ∀ (i : Nat) (c : InsertCounters) (j : Nat), j < rows.length →
      outcomes (i + j) = InsertOutcome.integrityError →
      Event.log LogLevel.warning
        ("Duplicate entry for ID " ++ showValue ((rows.getD j []).getD 0 Value.nullV) ++
         ". Skipping insertion.")
        ∈ (insertLoopAux outcomes i rows c).2 := by
  induction rows with
  | nil => intro i c j hj _; simp at hj
  | cons data rest ih =>
      intro i c j hj hdup
      cases j with
      | zero =>
          rw [Nat.add_zero] at hdup
          simp [insertLoopAux, insertRowStep, hdup]
      | succ j' =>
          have hd2 : outcomes ((i + 1) + j') = InsertOutcome.integrityError := by
            rw [show (i + 1) + j' = i + (j' + 1) by omega]; exact hdup
          cases h : outcomes i <;>
            · simp only [insertLoopAux, insertRowStep, h, List.getD_cons_succ]
              exact List.mem_append.mpr (Or.inr (ih (i + 1) _ j' (by simpa using hj) hd2))

/-- Helper: over any index list, the ok-count and the non-ok-count sum to the
list length. -/
theorem countP_ok_add_countP_not_ok (outcomes : Nat → InsertOutcome) (l : List Nat) :
    l.countP (fun j => decide (outcomes j = InsertOutcome.ok))
      + l.countP (fun j => decide (¬ outcomes j = InsertOutcome.ok)) = l.length := by
  induction l with
  | nil => simp
  | cons a t ih =>
      simp only [List.countP_cons, decide_not] at ih ⊢
      by_cases h : outcomes a = InsertOutcome.ok <;> simp [h] <;> omega

/-- C9: after the per-row loop of `insert_data` runs over a record set of `n`
records, every record has been attempted exactly once regardless of earlier
failures (one `rowInsert` event per index below `n`, none beyond), and
`successful_inserts + failed_inserts = n`. -/
theorem C9_insert_loop_attempts_all_rows (outcomes : Nat → InsertOutcome)
    (rows : List (List Value)) :
    (insertLoop outcomes rows).2.countP isRowInsertEv = rows.length ∧
    (∀ j, (insertLoop outcomes rows).2.countP (fun e => decide (e = Event.rowInsert j))
          = if j < rows.length then 1 else 0) ∧
    (insertLoop outcomes rows).1.successful_inserts
      + (insertLoop outcomes rows).1.failed_inserts = rows.length := by
  obtain ⟨h1, h2, h3⟩ := insertLoopAux_spec outcomes rows 0 ⟨0, 0⟩
  refine ⟨h3, fun j => ?_, ?_⟩
  · have hc := insertLoopAux_count_rowInsert outcomes j rows 0 ⟨0, 0⟩
    simpa using hc
  · have hs := countP_ok_add_countP_not_ok outcomes (List.range' 0 rows.length)
    rw [List.length_range'] at hs
    simp only [insertLoop]
    simp [decide_not] at h1 h2 hs
    omega

/-- C1 counterexample: a duplicate-primary-key failure does not go to a
counter distinct from the failed counter — `insert_data` has only
`successful_inserts` and `failed_inserts`, and an `IntegrityError` increments
`failed_inserts`, the very counter other insertion errors use, leaving the
loop state identical to that of a generic insertion error. -/
theorem C1_counterexample :
    (insertLoop (fun _ => InsertOutcome.integrityError) [dupRow]).1.failed_inserts = 1 ∧
    (insertLoop (fun _ => InsertOutcome.integrityError) [dupRow]).1
      = (insertLoop (fun _ => InsertOutcome.otherError "driver error") [dupRow]).1 := by
  exact ⟨rfl, rfl⟩

/-- C1 (amended): for every record whose insert fails with a duplicate-key
(integrity) error, the Row Loader logs a warning identifying the record's key
and continues the loop — no exception escapes, every row is attempted — but
the increment goes to the single `failed_inserts` counter, the same one used
for all other insertion errors (it counts every non-ok outcome). -/
theorem C1_duplicate_key_path (outcomes : Nat → InsertOutcome)
    (rows : List (List Value)) (i : Nat) (hi : i < rows.length)
    (hdup : outcomes i = InsertOutcome.integrityError) :
    Event.log LogLevel.warning
        ("Duplicate entry for ID " ++ showValue ((rows.getD i []).getD 0 Value.nullV) ++
         ". Skipping insertion.") ∈ (insertLoop outcomes rows).2 ∧
    (insertLoop outcomes rows).1.failed_inserts
      = (List.range rows.length).countP (fun j => decide (¬ outcomes j = InsertOutcome.ok)) ∧
    0 < (insertLoop outcomes rows).1.failed_inserts ∧
    (insertLoop outcomes rows).2.countP isRowInsertEv = rows.length := by
  obtain ⟨h1, h2, h3⟩ := insertLoopAux_spec outcomes rows 0 ⟨0, 0⟩
  refine ⟨insertLoopAux_dup_mem outcomes rows 0 ⟨0, 0⟩ i hi (by simpa using hdup), ?_, ?_, h3⟩
  · rw [insertLoop, h2, List.range_eq_range']
    simp
  · rw [insertLoop, h2]
    have hpos : 0 < (List.range' 0 rows.length).countP
        (fun j => decide (¬ outcomes j = InsertOutcome.ok)) := by
      rw [List.countP_pos_iff]
      exact ⟨i, by rw [List.mem_range'_1]; omega, by simp [hdup]⟩
    simpa using hpos

/-- C1 witness: instantiating the duplicate path on a one-row batch whose
single insert raises an integrity error. -/
theorem C1_amended_witness :
    Event.log LogLevel.warning
        ("Duplicate entry for ID " ++ showValue (([dupRow].getD 0 []).getD 0 Value.nullV) ++
         ". Skipping insertion.")
      ∈ (insertLoop (fun _ => InsertOutcome.integrityError) [dupRow]).2 ∧
    0 < (insertLoop (fun _ => InsertOutcome.integrityError) [dupRow]).1.failed_inserts := by
  have h := C1_duplicate_key_path (fun _ => InsertOutcome.integrityError) [dupRow] 0
    (by decide) rfl
  exact ⟨h.1, h.2.2.1⟩

/-- Helper: a column name that is not a key of the rename dict passes through
unchanged. -/
theorem renameCol_not_key (c : String) (h : c ∉ renameKeys) : renameCol c = c := by
  simp only [renameKeys, List.mem_cons, List.not_mem_nil, or_false, not_or] at h
  obtain ⟨h1, h2, h3, h4, h5, h6, h7⟩ := h
  simp [renameCol, h1, h2, h3, h4, h5, h6, h7]

/-- C8: the column-renaming (flattening) function is a deterministic map over
the fixed rename table that leaves every name outside the table unchanged, and
it is idempotent: renaming the columns a second time — as `main` (line 210)
followed by `create_table_if_not_exists` (line 103) does — yields the same
column set (indeed the same frame) as renaming once. -/
theorem C8_rename_fixed_map_idempotent :
    (∀ c, c ∉ renameKeys → renameCol c = c) ∧
    (∀ c, renameCol (renameCol c) = renameCol c) ∧
    (∀ df : DataFrame, renameDF (renameDF df) = renameDF df) := by
  have hid : ∀ c, renameCol (renameCol c) = renameCol c := by
    intro c
    by_cases h : c ∈ renameKeys
    · simp only [renameKeys, List.mem_cons, List.not_mem_nil, or_false] at h
      rcases h with h | h | h | h | h | h | h <;> subst h <;> rfl
    · rw [renameCol_not_key c h, renameCol_not_key c h]
  refine ⟨renameCol_not_key, hid, fun df => ?_⟩
  simp only [renameDF, List.map_map]
  congr 1
  exact List.map_congr_left (fun c _ => hid c)

/-- C8 witness: a non-key column passes through; renaming an already-renamed
key column changes nothing. -/
theorem C8_witness :
    renameCol "img_src" = "img_src" ∧
    renameCol (renameCol "camera.name") = renameCol "camera.name" := by
  have h := C8_rename_fixed_map_idempotent
  exact ⟨h.1 "img_src" (by decide), h.2.1 "camera.name"⟩

/-- Helper: no string equals itself with ` PRIMARY KEY` appended. -/
theorem self_ne_append_primary_key (s : String) : ¬ s = s ++ " PRIMARY KEY" := by
  intro h
  have hl := congrArg String.length h
  rw [String.length_append] at hl
  have h12 : (" PRIMARY KEY" : String).length = 12 := rfl
  omega

/-- C6: the Table Provisioner maps each column's dtype to a SQL type by the
fixed lookup (int64→BIGINT, float64→FLOAT, object→NVARCHAR(MAX), bool→BIT,
datetime64→DATETIME), defaults to NVARCHAR(MAX) for any unrecognized dtype,
and a column definition in the emitted CREATE TABLE carries the PRIMARY KEY
marker exactly when the column is named `id`. -/
theorem C6_schema_type_mapping :
    sqlTypeFor "int64" = "BIGINT" ∧
    sqlTypeFor "float64" = "FLOAT" ∧
    sqlTypeFor "object" = "NVARCHAR(MAX)" ∧
    sqlTypeFor "bool" = "BIT" ∧
    sqlTypeFor "datetime64[ns]" = "DATETIME" ∧
    sqlTypeFor "datetime64[ns, UTC]" = "DATETIME" ∧
    (∀ d, sql_types.lookup d = none → sqlTypeFor d = "NVARCHAR(MAX)") ∧
    (∀ c d, columnDef c d = "[" ++ c ++ "] " ++ sqlTypeFor d ++ " PRIMARY KEY" ↔ c = "id") ∧
    (∀ df : DataFrame, ∀ i : Nat, i < df.cols.length → i < df.dtypes.length →
      (columns_with_types df).getD i ""
        = columnDef (df.cols.getD i "") (df.dtypes.getD i "")) := by
  refine ⟨rfl, rfl, rfl, rfl, rfl, rfl, ?_, ?_, ?_⟩
  · intro d h
    simp [sqlTypeFor, h]
  · intro c d
    constructor
    · intro h
      by_contra hne
      rw [columnDef, if_neg hne] at h
      exact self_ne_append_primary_key _ h
    · intro h
      subst h
      simp [columnDef]
  · intro df i h1 h2
    have hz : i < (df.cols.zip df.dtypes).length := by
      rw [List.length_zip]
      omega
    have hm : i < ((df.cols.zip df.dtypes).map (fun p => columnDef p.1 p.2)).length := by
      simpa using hz
    rw [columns_with_types, List.getD_eq_getElem _ _ hm, List.getElem_map,
        List.getElem_zip, List.getD_eq_getElem _ _ h1, List.getD_eq_getElem _ _ h2]

/-- C6 witness: an unrecognized dtype falls back to NVARCHAR(MAX); the `id`
column of the concrete frame is the primary-key column and its emitted
definition agrees with the per-column map. -/
theorem C6_witness :
    sqlTypeFor "int32" = "NVARCHAR(MAX)" ∧
    columnDef "id" "int64" = "[" ++ "id" ++ "] " ++ sqlTypeFor "int64" ++ " PRIMARY KEY" ∧
    (columns_with_types dfRawC).getD 0 ""
      = columnDef (dfRawC.cols.getD 0 "") (dfRawC.dtypes.getD 0 "") := by
  have h := C6_schema_type_mapping
  exact ⟨h.2.2.2.2.2.2.1 "int32" rfl,
         (h.2.2.2.2.2.2.2.1 "id" "int64").mpr rfl,
         h.2.2.2.2.2.2.2.2 dfRawC 0 (by decide) (by decide)⟩

/-- C10: `create_table_if_not_exists` is not observation-only — it renames the
dotted `camera.*`/`rover.*` columns of its dataframe argument in place (modelled
here by the returned frame), so after it returns the caller's record set has
the flattened column names. -/
theorem C10_create_table_renames_in_place (env : Env) (table_name : String)
    (df : DataFrame) (h : env.ddlOk = true) :
    (create_table_if_not_exists env table_name df).2 =
      Except.ok { df with cols := df.cols.map renameCol } := by
  simp [create_table_if_not_exists, renameDF, h]

/-- C10 witness: provisioning the concrete fetched frame returns it with the
seven dotted columns flattened. -/
theorem C10_witness :
    (create_table_if_not_exists goodEnv "mars_rover_photos_raw" dfRawC).2 =
      Except.ok { dfRawC with cols := dfRawC.cols.map renameCol } :=
  C10_create_table_renames_in_place goodEnv "mars_rover_photos_raw" dfRawC rfl

/-- C7: for a value in a date-like column that the datetime parser cannot
parse, `errors='coerce'` replaces it with null in the loaded row — the coerced
row stays in the record set handed to the Row Loader (the run continues rather
than aborting). -/
theorem C7_unparseable_date_becomes_null (parse : Value → Option Int) :
    (∀ v, parse v = none → toDatetimeCoerce parse v = Value.nullV) ∧
    (∀ (df : DataFrame) (r : List Value), r ∈ df.rows →
        coerceRow parse date_columns df.cols r ∈ (coerceDates parse date_columns df).rows) ∧
    (∀ (cols : List String) (r : List Value) (j : Nat),
        j < cols.length → j < r.length → cols.getD j "" ∈ date_columns →
        parse (r.getD j Value.nullV) = none →
        (coerceRow parse date_columns cols r).getD j (Value.intV 0) = Value.nullV) := by
  refine ⟨?_, ?_, ?_⟩
  · intro v h
    simp [toDatetimeCoerce, h]
  · intro df r hr
    simp only [coerceDates, coerceRow]
    exact List.mem_map_of_mem _ hr
  · intro cols r j hj1 hj2 hcol hparse
    have hz : j < (cols.zip r).length := by
      rw [List.length_zip]
      omega
    have hm : j < ((cols.zip r).map
        (fun p => if p.1 ∈ date_columns then toDatetimeCoerce parse p.2 else p.2)).length := by
      simpa using hz
    rw [List.getD_eq_getElem _ _ hj1] at hcol
    rw [List.getD_eq_getElem _ _ hj2] at hparse
    rw [coerceRow, List.getD_eq_getElem _ _ hm, List.getElem_map, List.getElem_zip]
    simp [hcol, toDatetimeCoerce, hparse]

/-- C7 witness: the concrete parser rejects a numeric cell in `earth_date`,
which is loaded as null. -/
theorem C7_witness :
    toDatetimeCoerce parseC Value.nullV = Value.nullV ∧
    (coerceRow parseC date_columns ["earth_date"] [Value.intV 5]).getD 0 (Value.intV 0)
      = Value.nullV := by
  have h := C7_unparseable_date_becomes_null parseC
  exact ⟨h.1 Value.nullV rfl,
         h.2.2 ["earth_date"] [Value.intV 5] 0 (by decide) (by decide) (by decide) rfl⟩

/-- C5: a run whose fetch yields zero records — including a network error
converted to an empty result — exits with status 1 before any DB connection
attempt. -/
theorem C5_empty_fetch_fails_fast (normalize : List Photo → DataFrame)
    (parse : Value → Option Int) (env : Env)
    (hk : env.apiKeyPresent = true)
    (h : env.networkOk = false ∨ env.photos = []) :
    (mainRun normalize parse env).2 = 1 ∧
    Event.dbConnect ∉ (mainRun normalize parse env).1 := by
  rcases h with h | h
  · simp [mainRun, fetch_nasa_mars_rover_photos, hk, h]
  · by_cases hn : env.networkOk = true <;>
      simp [mainRun, fetch_nasa_mars_rover_photos, hk, h, hn]

/-- C5 witness: the successful-everything environment with an empty photo
list exits 1 with no connection attempt. -/
theorem C5_witness :
    (mainRun normalizeC parseC emptyFetchEnv).2 = 1 ∧
    Event.dbConnect ∉ (mainRun normalizeC parseC emptyFetchEnv).1 :=
  C5_empty_fetch_fails_fast normalizeC parseC emptyFetchEnv rfl (Or.inr rfl)

/-- Helper: the per-row loop never emits a commit attempt; the only commit of
`insert_data` is the single post-batch one. -/
theorem insertLoopAux_no_batchCommit (outcomes : Nat → InsertOutcome)
    (rows : List (List Value)) :
    ∀ (i : Nat) (c : InsertCounters),
      (insertLoopAux outcomes i rows c).2.countP isBatchCommitEv = 0 := by
  induction rows with
  | nil => intro i c; simp [insertLoopAux]
  | cons data rest ih =>
      intro i c
      cases h : outcomes i <;>
        simp [insertLoopAux, insertRowStep, h, List.countP_append, List.countP_cons,
              isBatchCommitEv, ih]

/-- C4: when a required column is absent from the flattened record set (and
the run reaches that check), the process exits 1 after the provisioning DDL
was executed and before any row insert is attempted. -/
theorem C4_missing_column_fails_before_insert (normalize : List Photo → DataFrame)
    (parse : Value → Option Int) (env : Env)
    (hk : env.apiKeyPresent = true) (hn : env.networkOk = true)
    (hp : env.photos ≠ []) (hc : env.dbConfigMissing = [])
    (hco : env.connectOk = true) (hddl : env.ddlOk = true)
    (hmiss : ∃ c ∈ required_columns,
        c ∉ (renameDF (renameDF (normalize env.photos))).cols) :
    (mainRun normalize parse env).2 = 1 ∧
    Event.ddlExecute ∈ (mainRun normalize parse env).1 ∧
    ∀ i, Event.rowInsert i ∉ (mainRun normalize parse env).1 := by
  have hpe : env.photos.isEmpty = false := List.isEmpty_eq_false.mpr hp
  simp [mainRun, fetch_nasa_mars_rover_photos, connect_to_sql_server,
        create_table_if_not_exists, hk, hn, hc, hco, hddl, hpe, hmiss]

/-- C4 witness: a fetch whose normalized frame lacks `img_src` makes the run
exit 1 after executing the DDL and before any insert attempt. -/
theorem C4_witness :
    (mainRun normalizeMissC parseC goodEnv).2 = 1 ∧
    Event.ddlExecute ∈ (mainRun normalizeMissC parseC goodEnv).1 ∧
    ∀ i, Event.rowInsert i ∉ (mainRun normalizeMissC parseC goodEnv).1 :=
  C4_missing_column_fails_before_insert normalizeMissC parseC goodEnv rfl rfl
    (by decide) rfl rfl rfl ⟨"img_src", by decide, by decide⟩

/-- C3: if the single post-batch commit of `insert_data` fails, the error is
logged and the transaction rolled back, the commit is attempted exactly once
(no retry), and the run still closes cursor and connection and exits 0. -/
theorem C3_commit_failure_is_recoverable (normalize : List Photo → DataFrame)
    (parse : Value → Option Int) (env : Env)
    (hk : env.apiKeyPresent = true) (hn : env.networkOk = true)
    (hp : env.photos ≠ []) (hc : env.dbConfigMissing = [])
    (hco : env.connectOk = true) (hddl : env.ddlOk = true)
    (hcols : ∀ c ∈ required_columns, c ∈ (renameDF (renameDF (normalize env.photos))).cols)
    (hcommit : env.commitOk = false) :
    Event.log LogLevel.error "Error committing data to SQL Server"
      ∈ (mainRun normalize parse env).1 ∧
    Event.batchRollback ∈ (mainRun normalize parse env).1 ∧
    (mainRun normalize parse env).1.countP isBatchCommitEv = 1 ∧
    Event.cursorClose ∈ (mainRun normalize parse env).1 ∧
    Event.connClose ∈ (mainRun normalize parse env).1 ∧
    (mainRun normalize parse env).2 = 0 := by
  have hpe : env.photos.isEmpty = false := List.isEmpty_eq_false.mpr hp
  have hnex : ¬ ∃ x ∈ required_columns,
      x ∉ (renameDF (renameDF (normalize env.photos))).cols := by
    rintro ⟨x, hx, hnx⟩
    exact hnx (hcols x hx)
  simp [mainRun, fetch_nasa_mars_rover_photos, connect_to_sql_server,
        create_table_if_not_exists, insert_data, insertLoop, hk, hn, hc, hco, hddl,
        hpe, hnex, hcommit, List.countP_append, List.countP_cons, isBatchCommitEv,
        insertLoopAux_no_batchCommit]

/-- C3 witness: a concrete full run whose final commit fails still rolls back,
closes both resources, attempts the commit once and exits 0. -/
theorem C3_witness :
    Event.log LogLevel.error "Error committing data to SQL Server"
      ∈ (mainRun normalizeC parseC commitFailEnv).1 ∧
    Event.batchRollback ∈ (mainRun normalizeC parseC commitFailEnv).1 ∧
    (mainRun normalizeC parseC commitFailEnv).1.countP isBatchCommitEv = 1 ∧
    Event.cursorClose ∈ (mainRun normalizeC parseC commitFailEnv).1 ∧
    Event.connClose ∈ (mainRun normalizeC parseC commitFailEnv).1 ∧
    (mainRun normalizeC parseC commitFailEnv).2 = 0 :=
  C3_commit_failure_is_recoverable normalizeC parseC commitFailEnv rfl rfl
    (by decide) rfl rfl rfl (by decide) rfl

/-- C2 counterexample: on the table-creation-failure path the process exits
with the connection still open — the cursor is closed (inside
`create_table_if_not_exists`) but `cnxn.close()` is never reached, refuting
"both closed on every path". -/
theorem C2_counterexample :
    Event.dbConnect ∈ (mainRun normalizeC parseC ddlFailEnv).1 ∧
    Event.cursorOpen ∈ (mainRun normalizeC parseC ddlFailEnv).1 ∧
    Event.cursorClose ∈ (mainRun normalizeC parseC ddlFailEnv).1 ∧
    Event.connClose ∉ (mainRun normalizeC parseC ddlFailEnv).1 ∧
    (mainRun normalizeC parseC ddlFailEnv).2 = 1 := by
  decide

/-- C2 (amended): once the connection is acquired, every path except the
table-creation-failure one closes both cursor and connection before exit; on
the table-creation-failure path only the cursor is closed and the process
exits 1 with the connection left open. -/
theorem C2_resource_release_paths (normalize : List Photo → DataFrame)
    (parse : Value → Option Int) (env : Env)
    (hk : env.apiKeyPresent = true) (hn : env.networkOk = true)
    (hp : env.photos ≠ []) (hc : env.dbConfigMissing = [])
    (hco : env.connectOk = true) :
    (env.ddlOk = false →
        Event.cursorClose ∈ (mainRun normalize parse env).1 ∧
        Event.connClose ∉ (mainRun normalize parse env).1 ∧
        (mainRun normalize parse env).2 = 1) ∧
    (env.ddlOk = true →
        Event.cursorClose ∈ (mainRun normalize parse env).1 ∧
        Event.connClose ∈ (mainRun normalize parse env).1) := by
  have hpe : env.photos.isEmpty = false := List.isEmpty_eq_false.mpr hp
  constructor
  · intro hddl
    simp [mainRun, fetch_nasa_mars_rover_photos, connect_to_sql_server,
          create_table_if_not_exists, hk, hn, hc, hco, hddl, hpe]
  · intro hddl
    by_cases hE : ∃ x ∈ required_columns,
        x ∉ (renameDF (renameDF (normalize env.photos))).cols <;>
      simp [mainRun, fetch_nasa_mars_rover_photos, connect_to_sql_server,
            create_table_if_not_exists, hk, hn, hc, hco, hddl, hpe, hE]

/-- C2 amended witness: the DDL-failure run closes the cursor but not the
connection. -/
theorem C2_amended_witness :
    Event.cursorClose ∈ (mainRun normalizeC parseC ddlFailEnv).1 ∧
    Event.connClose ∉ (mainRun normalizeC parseC ddlFailEnv).1 ∧
    (mainRun normalizeC parseC ddlFailEnv).2 = 1 :=
  (C2_resource_release_paths normalizeC parseC ddlFailEnv rfl rfl (by decide)
    rfl rfl).1 rfl
